import Mathlib

/-!
Shallow embedding of the attendance-management backend (`src/app.py`).

The Flask handlers are modelled as pure Lean functions over an explicit
database state `DB` and an explicit optional `Session`.  External
collaborators (the password-hash check from werkzeug, the Gemini text
generation service, and the text of driver exceptions raised by psycopg2)
are passed in as parameters, exactly where the Python code calls out to
them.  JSON response bodies are modelled by the inductive `Json`, and a
handler result is a `Response` (HTTP status plus body) together with
whatever state it returns.
-/

namespace AttendanceApp

/-- JSON values, for modelling `jsonify(...)` bodies. -/
inductive Json where
  | str : String → Json
  | num : Nat → Json
  | bool : Bool → Json
  | null : Json
  | arr : List Json → Json
  | obj : List (String × Json) → Json

/-- An HTTP response: status code and JSON body (Flask defaults to 200). -/
structure Response where
  status : Nat
  body : Json

/-- `jsonify({'message': s})`. -/
def msg (s : String) : Json := Json.obj [("message", Json.str s)]

/-- Row of the `admins` table (`password` holds the werkzeug hash). -/
structure Admin where
  id : Nat
  username : String
  password : String
deriving DecidableEq

/-- Row of the `teachers` table. -/
structure Teacher where
  id : Nat
  name : String
  email : String
  password : String
  class_id : Nat
  phone : Option String
  is_approved : Bool
deriving DecidableEq

/-- Row of the `students` table. -/
structure Student where
  id : Nat
  name : String
  username : String
  password : String
  class_id : Nat
deriving DecidableEq

/-- Row of the `classes` table. -/
structure ClassRow where
  id : Nat
  name : String
deriving DecidableEq

/-- Row of the `attendance` table.  The SQL `date` column is modelled as a
`Nat` ordered like the calendar dates it stands for; `toString` plays the
role of the textual form used in the prompt. -/
structure AttendanceRow where
  student_id : Nat
  date : Nat
  status : String
deriving DecidableEq

/-- The relational store: the five tables of the application. -/
structure DB where
  admins : List Admin
  teachers : List Teacher
  students : List Student
  classes : List ClassRow
  attendance : List AttendanceRow
deriving DecidableEq

/-- The Flask server-side session contents set by `login`:
`session['user_id']`, `session['role']`, `session['name']`. -/
structure Session where
  user_id : Nat
  role : String
  name : String
deriving DecidableEq

/-! ### `login_required` decorator (app.py lines 37-49) -/

/-- Response of the guard when `'user_id' not in session`. -/
def authRequiredResp : Response := ⟨401, msg "Authentication required"⟩

/-- Response of the guard when the session role mismatches. -/
def forbiddenResp : Response := ⟨403, msg "Forbidden"⟩

/-- `login_required(role)` wrapping a handler: with no session it returns
401; with a session whose role differs from a truthy `role` it returns
403; otherwise it runs the handler.  (`if role and ...`: a `None` or empty
`role` skips the role check, mirroring Python truthiness.) -/
def login_required (role : Option String) (sess : Option Session)
    (handler : Unit → Response) : Response :=
  match sess with
  | none => authRequiredResp
  | some s =>
    match role with
    | some r => if r != "" && r != s.role then forbiddenResp else handler ()
    | none => handler ()

/-! ### `login` (app.py lines 55-85) -/

/-- The uniform failure response of `login`. -/
def invalidCredsResp : Response :=
  ⟨401, msg "Invalid credentials or account not approved"⟩

/-- The `login` handler.  `chk hash pw` stands for werkzeug
`check_password_hash(hash, pw)`.  Role selects the table and match column:
admin by `username`, teacher by `email` with `is_approved = true`, student
by `username`.  Returns the response and the resulting session. -/
def login (db : DB) (chk : String → String → Bool)
    (username password role : String) (sess : Option Session) :
    Response × Option Session :=
  let user_data : Option (Nat × String × String) :=
    if role == "admin" then
      (db.admins.find? (fun a => a.username == username)).map
        (fun a => (a.id, a.username, a.password))
    else if role == "teacher" then
      (db.teachers.find? (fun t => t.email == username && t.is_approved)).map
        (fun t => (t.id, t.name, t.password))
    else if role == "student" then
      (db.students.find? (fun s => s.username == username)).map
        (fun s => (s.id, s.name, s.password))
    else none
  match user_data with
  | some (uid, nm, pw) =>
    if chk pw password then
      let display := if role != "admin" then nm else "Admin"
      (⟨200, Json.obj [("success", Json.bool true),
          ("user", Json.obj [("id", Json.num uid), ("name", Json.str display),
            ("role", Json.str role)])]⟩,
       some ⟨uid, role, display⟩)
    else (invalidCredsResp, sess)
  | none => (invalidCredsResp, sess)

/-! ### `signup_teacher` (app.py lines 102-130) -/

/-- Python truthiness of an optional JSON string (`None` and `""` are
falsy), as used by `all([...])`. -/
def truthyS : Option String → Bool
  | none => false
  | some s => s != ""

/-- Python truthiness of an optional JSON number (`None` and `0` are
falsy). -/
def truthyN : Option Nat → Bool
  | none => false
  | some n => n != 0

/-- Modelled from the spec: the store-level integrity constraints on
`INSERT INTO teachers` — the schema itself is not under `src/`.  Per the
spec, `email` is unique (`DuplicateEmail`) and `class_id` is a foreign key
into `classes`; either violation raises `psycopg2.IntegrityError`. -/
def teacherInsertViolation (db : DB) (email : String) (class_id : Nat) : Bool :=
  db.teachers.any (fun t => t.email == email) ||
    !(db.classes.any (fun c => c.id == class_id))

/-- Next id handed out by the `teachers` serial column. -/
def nextTeacherId (db : DB) : Nat :=
  (db.teachers.map (fun t => t.id)).foldr max 0 + 1

/-- The `signup_teacher` handler.  `genHash` stands for werkzeug
`generate_password_hash`.  Note the required-field check is
`all([name, email, password, class_id])`: `phone` is not checked. -/
def signup_teacher (db : DB) (genHash : String → String)
    (name email password : Option String) (class_id : Option Nat)
    (phone : Option String) : Response × DB :=
  if !(truthyS name && truthyS email && truthyS password && truthyN class_id) then
    (⟨400, msg "Missing required fields"⟩, db)
  else
    let nm := name.getD ""
    let em := email.getD ""
    let cid := class_id.getD 0
    let hashed := genHash (password.getD "")
    if teacherInsertViolation db em cid then
      (⟨409, msg "Email address already exists"⟩, db)
    else
      (⟨201, msg "Signup successful! Please wait for admin approval."⟩,
       { db with teachers := db.teachers ++
          [⟨nextTeacherId db, nm, em, hashed, cid, phone, false⟩] })

/-! ### `approve_teacher` (app.py lines 163-174) -/

/-- Success response of `approve_teacher` (returned unconditionally). -/
def approveOkResp : Response := ⟨200, msg "Teacher approved successfully"⟩

/-- `UPDATE teachers SET is_approved = true WHERE id = %s` applied to one
row. -/
def approveRow (teacher_id : Nat) (t : Teacher) : Teacher :=
  if t.id == teacher_id then { t with is_approved := true } else t

/-- The `approve_teacher` handler: updates every matching row and always
reports success, whether or not any row matched. -/
def approve_teacher (db : DB) (teacher_id : Nat) : Response × DB :=
  (approveOkResp, { db with teachers := db.teachers.map (approveRow teacher_id) })

/-! ### `delete_class` (app.py lines 193-207) -/

/-- Modelled from the spec: the schema (not under `src/`) declares foreign
keys `teachers.class_id → classes.id` and `students.class_id → classes.id`,
so `DELETE FROM classes` raises a `psycopg2.Error` exactly when some
teacher or student row still references the class. -/
def classReferenced (db : DB) (class_id : Nat) : Bool :=
  db.teachers.any (fun t => t.class_id == class_id) ||
    db.students.any (fun s => s.class_id == class_id)

/-- The `delete_class` handler.  `errText` is the text `str(e)` of the
driver exception; on failure the handler rolls back (state unchanged) and
interpolates that text into the 400 body. -/
def delete_class (db : DB) (errText : String) (class_id : Nat) :
    Response × DB :=
  if classReferenced db class_id then
    (⟨400, msg ("Cannot delete class, it may be in use. DB Error: " ++ errText)⟩, db)
  else
    (⟨200, msg "Class deleted"⟩,
     { db with classes := db.classes.filter (fun c => !(c.id == class_id)) })

/-! ### `generate_student_report` (app.py lines 240-292) -/

/-- `ORDER BY date DESC`: row `a` precedes row `b` when `b.date ≤ a.date`. -/
def dateGE (a b : AttendanceRow) : Prop := b.date ≤ a.date

instance : DecidableRel dateGE := fun a b => Nat.decLe b.date a.date

instance : IsTotal AttendanceRow dateGE :=
  ⟨fun a b => by unfold dateGE; exact Nat.le_total b.date a.date⟩

instance : IsTrans AttendanceRow dateGE :=
  ⟨fun _ _ _ h1 h2 => by unfold dateGE at *; exact Nat.le_trans h2 h1⟩

/-- `SELECT date, status FROM attendance WHERE student_id = %s ORDER BY
date DESC LIMIT 30`: some date-descending permutation of the student's
rows, truncated to 30. -/
def recentAttendance (db : DB) (student_id : Nat) : List AttendanceRow :=
  (List.insertionSort dateGE
    (db.attendance.filter (fun a => a.student_id == student_id))).take 30

/-- `f"{record[0]}: {record[1]}"`. -/
def renderRecord (r : AttendanceRow) : String :=
  toString r.date ++ ": " ++ r.status

/-- The f-string prompt template (app.py lines 277-282). -/
def reportPrompt (student_name attendance_str : String) : String :=
  "\n    As a helpful teacher\x27s assistant, analyze the following recent attendance data for a student named "
    ++ student_name
    ++ " and write a brief, constructive performance summary (2-4 sentences). \n    Focus on patterns, not just listing dates. Be positive if the attendance is good, or gently concerned if there are issues like frequent absences or half-days.\n\n    Data: "
    ++ attendance_str
    ++ "\n    "

/-- The canned reply when the student has no attendance rows. -/
def noRecordsReport (student_name : String) : String :=
  student_name ++ " has no recent attendance records."

/-- The `generate_student_report` handler.  `apiKeySet` models
`GEMINI_API_KEY` being configured; `aiService` is the external
text-generation collaborator (prompt in, text or error message out).  The
second component counts the calls made to `aiService`. -/
def generate_student_report (db : DB) (apiKeySet : Bool)
    (aiService : String → Except String String) (student_id : Nat) :
    Response × Nat :=
  if !apiKeySet then
    (⟨500, msg "Gemini API key is not configured on the server."⟩, 0)
  else
    match db.students.find? (fun s => s.id == student_id) with
    | none => (⟨404, msg "Student not found"⟩, 0)
    | some st =>
      let records := recentAttendance db student_id
      if records.isEmpty then
        (⟨200, Json.obj [("report", Json.str (noRecordsReport st.name))]⟩, 0)
      else
        let attendance_str := String.intercalate ", " (records.map renderRecord)
        let prompt := reportPrompt st.name attendance_str
        match aiService prompt with
        | Except.ok t => (⟨200, Json.obj [("report", Json.str t)]⟩, 1)
        | Except.error e =>
          (⟨500, msg ("Failed to generate report due to an AI service error: " ++ e)⟩, 1)

/-! ### Sample data for concrete evaluations -/

/-- Extracts the `message` field of a one-field JSON error body. -/
def bodyMsg (r : Response) : Option String :=
  match r with
  | ⟨_, Json.obj [("message", Json.str s)]⟩ => some s
  | _ => none

/-- A small concrete database: class 1 is referenced by a teacher and two
students, class 2 is referenced by nobody; student 1 has two attendance
rows, student 2 has none. -/
def dbW : DB :=
  { admins := [⟨1, "admin", "HA"⟩]
    teachers := [⟨1, "Tina", "t@x.com", "HT", 1, some "123", true⟩]
    students := [⟨1, "Alice", "alice", "HS", 1⟩, ⟨2, "Bob", "bob", "HS2", 1⟩]
    classes := [⟨1, "ClassA"⟩, ⟨2, "ClassB"⟩]
    attendance := [⟨1, 2, "present"⟩, ⟨1, 1, "absent"⟩] }

/-- A concrete stand-in for the text-generation collaborator. -/
def svcW : String → Except String String := fun _ => Except.ok "GOODTEXT"

/-- A concrete stand-in for `generate_password_hash`. -/
def ghW : String → String := fun p => "HW" ++ p

/-! ### Helper lemmas -/

lemma approveRow_idem (tid : Nat) (t : Teacher) :
    approveRow tid (approveRow tid t) = approveRow tid t := by
  unfold approveRow
  by_cases h : t.id == tid <;> simp [h]

lemma approveRow_approves (tid : Nat) (t : Teacher) :
    (!((approveRow tid t).id == tid) || (approveRow tid t).is_approved) = true := by
  unfold approveRow
  by_cases h : t.id == tid <;> simp [h]

lemma map_approveRow_id (tid : Nat) (l : List Teacher)
    (h : l.all (fun t => !(t.id == tid)) = true) :
    l.map (approveRow tid) = l := by
  induction l with
  | nil => rfl
  | cons x xs ih =>
    rw [List.all_cons, Bool.and_eq_true] at h
    rw [List.map_cons, ih h.2]
    have hx : (x.id == tid) = false := by
      have := h.1
      simpa using this
    unfold approveRow
    rw [hx]
    simp

/-! ### Theorems for the claims -/

/-- Claim C1: every login request either succeeds with a 200 response or
returns the single fixed 401 `Invalid credentials or account not approved`
body — whether no row matched the identifier for the chosen role, the hash
check failed, or the account is an unapproved teacher (excluded by the
query), the failure response is identical, so no two failure causes are
distinguishable. -/
theorem login_failures_uniform (db : DB) (chk : String → String → Bool)
    (username password role : String) (sess : Option Session) :
    (login db chk username password role sess).1.status = 200 ∨
      (login db chk username password role sess).1 = invalidCredsResp := by
  unfold login
  dsimp only
  split
  · split
    · exact Or.inl rfl
    · exact Or.inr rfl
  · exact Or.inr rfl

/-- Claim C6: a role-restricted endpoint (guarded with a nonempty role)
returns 401 when no session exists and 403 when the session role differs
from the required role, and in both cases the result is the guard's
constant response for every handler, so the handler body never runs. -/
theorem role_guard_blocks (r : String) (hr : r ≠ "") (s : Session)
    (hmis : s.role ≠ r) (handler : Unit → Response) :
    login_required (some r) none handler = authRequiredResp ∧
      login_required (some r) (some s) handler = forbiddenResp := by
  refine ⟨rfl, ?_⟩
  have hcond : (r != "" && r != s.role) = true := by
    simp [bne_iff_ne, hr, Ne.symm hmis]
  simp [login_required, hcond]

theorem role_guard_blocks_witness :
    login_required (some "admin") none (fun _ => ⟨200, msg "ran"⟩) = authRequiredResp ∧
      login_required (some "admin") (some ⟨7, "teacher", "T"⟩)
        (fun _ => ⟨200, msg "ran"⟩) = forbiddenResp :=
  role_guard_blocks "admin" (by decide) ⟨7, "teacher", "T"⟩ (by decide)
    (fun _ => ⟨200, msg "ran"⟩)

/-- Claim C7: `approve_teacher` is idempotent — both calls return the same
success response, after the first call every row with the given id has
`is_approved = true`, and the second call leaves the state exactly as the
first call left it. -/
theorem approve_teacher_idempotent (db : DB) (tid : Nat) :
    (approve_teacher db tid).1 = approveOkResp ∧
      (approve_teacher (approve_teacher db tid).2 tid).1 = approveOkResp ∧
      (approve_teacher (approve_teacher db tid).2 tid).2 = (approve_teacher db tid).2 ∧
      ((approve_teacher db tid).2.teachers.all
        (fun t => !(t.id == tid) || t.is_approved)) = true := by
  refine ⟨rfl, rfl, ?_, ?_⟩
  · unfold approve_teacher
    dsimp only
    rw [List.map_map]
    have : approveRow tid ∘ approveRow tid = approveRow tid := by
      funext t
      exact approveRow_idem tid t
    rw [this]
  · unfold approve_teacher
    dsimp only
    rw [List.all_map]
    rw [List.all_eq_true]
    intro x _
    exact approveRow_approves tid x

/-- Claim C10: `approve_teacher` returns the 200 success response for every
id, including one matching no row (it never reports NotFound), and when no
row matches the state is unchanged. -/
theorem approve_teacher_unknown_id (db : DB) (tid : Nat) :
    (approve_teacher db tid).1 = approveOkResp ∧
      ((db.teachers.all (fun t => !(t.id == tid))) = true →
        (approve_teacher db tid).2 = db) := by
  refine ⟨rfl, fun h => ?_⟩
  unfold approve_teacher
  dsimp only
  rw [map_approveRow_id tid db.teachers h]

theorem approve_teacher_unknown_id_witness :
    (approve_teacher dbW 99).1 = approveOkResp ∧ (approve_teacher dbW 99).2 = dbW :=
  ⟨(approve_teacher_unknown_id dbW 99).1,
   (approve_teacher_unknown_id dbW 99).2 (by decide)⟩

/-- Claim C3: deleting a class with zero referencing teachers and students
succeeds (only that class row is removed); deleting a referenced class
returns status 400 and leaves the whole database — the class row and every
referencing row — unchanged (rollback). -/
theorem delete_class_spec (db : DB) (e : String) (cid : Nat) :
    (classReferenced db cid = false →
      delete_class db e cid =
        (⟨200, msg "Class deleted"⟩,
         { db with classes := db.classes.filter (fun c => !(c.id == cid)) })) ∧
    (classReferenced db cid = true →
      (delete_class db e cid).1.status = 400 ∧ (delete_class db e cid).2 = db) := by
  constructor
  · intro h
    simp [delete_class, h]
  · intro h
    simp [delete_class, h]

theorem delete_class_spec_witness :
    delete_class dbW "E" 2 =
      (⟨200, msg "Class deleted"⟩,
       { dbW with classes := dbW.classes.filter (fun c => !(c.id == 2)) }) ∧
    ((delete_class dbW "E" 1).1.status = 400 ∧ (delete_class dbW "E" 1).2 = dbW) :=
  ⟨(delete_class_spec dbW "E" 2).1 (by decide),
   (delete_class_spec dbW "E" 1).2 (by decide)⟩

/-- Claim C2, counterexample: the 400 body of `delete_class` is not the
domain message alone — it embeds the raw driver exception text, so two
different driver texts yield two different response bodies. -/
theorem delete_class_leaks_driver_text :
    bodyMsg (delete_class dbW "XYZRAWDRIVER" 1).1 =
      some ("Cannot delete class, it may be in use. DB Error: " ++ "XYZRAWDRIVER") ∧
    bodyMsg (delete_class dbW "XYZRAWDRIVER" 1).1 ≠ bodyMsg (delete_class dbW "" 1).1 := by
  constructor
  · rfl
  · decide

/-- Claim C2, amended: integrity failures of the teacher signup are
re-surfaced as the fixed domain message with no driver text, but the 400
response of `delete_class` embeds the raw driver exception text appended
to the domain message. -/
theorem store_error_responses (db : DB) (e : String) (cid : Nat)
    (genHash : String → String) (nm em pw : String) (cl : Nat) (ph : Option String)
    (hf : (truthyS (some nm) && truthyS (some em) && truthyS (some pw) &&
      truthyN (some cl)) = true)
    (hv : teacherInsertViolation db em cl = true) :
    (signup_teacher db genHash (some nm) (some em) (some pw) (some cl) ph).1 =
      ⟨409, msg "Email address already exists"⟩ ∧
    (classReferenced db cid = true →
      (delete_class db e cid).1 =
        ⟨400, msg ("Cannot delete class, it may be in use. DB Error: " ++ e)⟩) := by
  constructor
  · simp [signup_teacher, hf, hv]
  · intro h
    simp [delete_class, h]

theorem store_error_responses_witness :
    (signup_teacher dbW ghW (some "X") (some "t@x.com") (some "p") (some 1) none).1 =
      ⟨409, msg "Email address already exists"⟩ ∧
    (delete_class dbW "RAW" 1).1 =
      ⟨400, msg ("Cannot delete class, it may be in use. DB Error: " ++ "RAW")⟩ :=
  ⟨(store_error_responses dbW "RAW" 1 ghW "X" "t@x.com" "p" 1 none
      (by decide) (by decide)).1,
   (store_error_responses dbW "RAW" 1 ghW "X" "t@x.com" "p" 1 none
      (by decide) (by decide)).2 (by decide)⟩

/-- Claim C8, counterexample: a signup request with `phone` missing but
`name`, `email`, `password`, `class_id` present is accepted with 201 and a
teacher row is inserted — the missing `phone` does not trigger the 400
missing-fields response. -/
theorem signup_missing_phone_accepted :
    (signup_teacher dbW ghW (some "N") (some "n@x.com") (some "p") (some 1) none).1.status
      = 201 ∧
    (signup_teacher dbW ghW (some "N") (some "n@x.com") (some "p") (some 1) none).2.teachers.length
      = dbW.teachers.length + 1 := by
  constructor <;> rfl

/-- Claim C8, amended: when any of `name`, `email`, `password`, `class_id`
is missing (Python-falsy), the response is the 400 missing-fields message
and the database is unchanged; a missing `phone` is not checked and does
not cause a 400. -/
theorem signup_missing_required_fields (db : DB) (genHash : String → String)
    (nm em pw : Option String) (cl : Option Nat) (ph : Option String)
    (h : (truthyS nm && truthyS em && truthyS pw && truthyN cl) = false) :
    signup_teacher db genHash nm em pw cl ph =
      (⟨400, msg "Missing required fields"⟩, db) := by
  simp [signup_teacher, h]

theorem signup_missing_required_fields_witness :
    signup_teacher dbW ghW none (some "n@x.com") (some "p") (some 1) (some "123") =
      (⟨400, msg "Missing required fields"⟩, dbW) :=
  signup_missing_required_fields dbW ghW none (some "n@x.com") (some "p") (some 1)
    (some "123") (by decide)

/-- Claim C9: every integrity-constraint violation of the teacher insert —
a duplicate email or a `class_id` referencing no existing class — yields
the same 409 duplicate-email response with the database unchanged; the
handler catches only `psycopg2.IntegrityError` and cannot distinguish the
causes. -/
theorem signup_integrity_uniform (db : DB) (genHash : String → String)
    (nm em pw : String) (cl : Nat) (ph : Option String)
    (hf : (truthyS (some nm) && truthyS (some em) && truthyS (some pw) &&
      truthyN (some cl)) = true)
    (hv : teacherInsertViolation db em cl = true) :
    signup_teacher db genHash (some nm) (some em) (some pw) (some cl) ph =
      (⟨409, msg "Email address already exists"⟩, db) := by
  simp [signup_teacher, hf, hv]

theorem signup_integrity_uniform_witness :
    signup_teacher dbW ghW (some "Y") (some "fresh@x.com") (some "p") (some 5) none =
      (⟨409, msg "Email address already exists"⟩, dbW) :=
  signup_integrity_uniform dbW ghW "Y" "fresh@x.com" "p" 5 none (by decide) (by decide)

/-- Claim C4: for an existing student with at least one attendance row, the
handler submits to the collaborator exactly the fixed template filled with
the student name and the `date: status` renderings of the up-to-30 most
recent rows joined by `", "`, and returns the collaborator's text
unmodified (one call).  The queried row list is date-descending, the sort
is a permutation of the student's rows (so each pair occurs exactly once
when the stored rows are distinct), and truncation keeps it duplicate-free. -/
theorem generate_report_prompt_spec (db : DB)
    (svc : String → Except String String) (sid : Nat) (st : Student) (txt : String)
    (hst : db.students.find? (fun s => s.id == sid) = some st)
    (hne : (recentAttendance db sid).isEmpty = false)
    (hnd : (db.attendance.filter (fun a => a.student_id == sid)).Nodup)
    (hsvc : svc (reportPrompt st.name
        (String.intercalate ", " ((recentAttendance db sid).map renderRecord)))
      = Except.ok txt) :
    generate_student_report db true svc sid =
        (⟨200, Json.obj [("report", Json.str txt)]⟩, 1) ∧
      List.Sorted dateGE (recentAttendance db sid) ∧
      (List.insertionSort dateGE
        (db.attendance.filter (fun a => a.student_id == sid))).Perm
        (db.attendance.filter (fun a => a.student_id == sid)) ∧
      (recentAttendance db sid).Nodup := by
  have hperm := List.perm_insertionSort dateGE
    (db.attendance.filter (fun a => a.student_id == sid))
  refine ⟨?_, ?_, hperm, ?_⟩
  · simp [generate_student_report, hst, hne, hsvc]
  · exact List.Pairwise.sublist (List.take_sublist 30 _)
      (List.sorted_insertionSort dateGE _)
  · exact List.Nodup.sublist (List.take_sublist 30 _) (hperm.nodup_iff.mpr hnd)

theorem generate_report_prompt_spec_witness :
    generate_student_report dbW true svcW 1 =
        (⟨200, Json.obj [("report", Json.str "GOODTEXT")]⟩, 1) ∧
      List.Sorted dateGE (recentAttendance dbW 1) ∧
      (List.insertionSort dateGE
        (dbW.attendance.filter (fun a => a.student_id == 1))).Perm
        (dbW.attendance.filter (fun a => a.student_id == 1)) ∧
      (recentAttendance dbW 1).Nodup :=
  generate_report_prompt_spec dbW svcW 1 ⟨1, "Alice", "alice", "HS", 1⟩ "GOODTEXT"
    rfl rfl (by decide) rfl

/-- Claim C5: for an existing student with zero attendance rows, the
handler returns the canned no-recent-records sentence naming the student,
and the result — including the zero call count — is the same for every
collaborator, so the external service is never invoked. -/
theorem generate_report_no_records (db : DB) (sid : Nat) (st : Student)
    (hst : db.students.find? (fun s => s.id == sid) = some st)
    (hempty : db.attendance.filter (fun a => a.student_id == sid) = []) :
    ∀ svc : String → Except String String,
      generate_student_report db true svc sid =
        (⟨200, Json.obj [("report", Json.str (noRecordsReport st.name))]⟩, 0) := by
  intro svc
  have hrec : recentAttendance db sid = [] := by
    unfold recentAttendance
    rw [hempty]
    rfl
  simp [generate_student_report, hst, hrec]

theorem generate_report_no_records_witness :
    generate_student_report dbW true svcW 2 =
      (⟨200, Json.obj [("report", Json.str (noRecordsReport "Bob"))]⟩, 0) :=
  generate_report_no_records dbW 2 ⟨2, "Bob", "bob", "HS2", 1⟩ rfl rfl svcW

end AttendanceApp
